import Mathlib

/-!
# Verification of the game-night-web voting and poll-lifecycle engine

Shallow embedding of the two variants of the application found in the
repository:

* `Backend` — the JSON-API variant (`backend/src/db.rs`,
  `backend/src/handlers/polls.rs`): polls with an explicit `is_active`
  flag and optional expiry, single-choice voting that replaces a user's
  previous vote in the poll.
* `Web` — the server-rendered template variant
  (`game-night-web/src/controllers/polls.rs`,
  `game-night-web/src/controllers/users.rs`,
  `game-night-web/src/routes/mod.rs`, `game-night-web/src/db/mod.rs`):
  mandatory expiry (activity derived from expiry vs now), toggle voting
  keyed by `(user_id, option_id)`.

Modelling conventions:

* SQL tables are lists of row structures; `i64` ids and timestamps are
  `Int` (none of the claims depend on 64-bit overflow).
* `created_at` columns are presentation-only in every claim considered
  here and are omitted from the row structures.
* External collaborators (bcrypt hashing, chrono date parsing) are
  passed in as opaque function parameters.
* Fallible store operations (an `INSERT` failing mid-loop) are modelled
  by an explicit failure oracle `failAt : Option Nat` giving the index
  of the first failing insert, so that the claims about partial states
  and rollback become statable.
* SQL `COUNT(*)` values are modelled as `Nat`; the floating-point
  percentage expression `(count as f64 / total as f64) * 100.0` is
  modelled over `ℚ` by the same expression (the contract under test is
  the shape of the expression and the zero-total branch, not f64
  rounding).
-/

namespace GameNight

/-- ASCII whitespace, for Rust's `str::trim` as used on titles and
option texts (the inputs of interest contain no exotic Unicode
whitespace). -/
def isWhite (c : Char) : Bool :=
  c == ' ' || c == '\t' || c == '\n' || c == '\r'

/-- Rust `str::trim`, modelled executably over the character list. -/
def trimChars (cs : List Char) : List Char :=
  ((cs.dropWhile isWhite).reverse.dropWhile isWhite).reverse

/-- Rust `s.trim().is_empty()`: every character is whitespace. -/
def trimIsEmpty (s : String) : Bool :=
  s.toList.all isWhite

/-! ## Backend (JSON-API) variant: data model (`backend/src/db.rs`) -/

namespace Backend

/-- Row of the `polls` table (`backend/src/db.rs`, `init_db`). -/
structure PollRow where
  id : Int
  title : String
  description : Option String
  created_by : Int
  expires_at : Option Int
  is_active : Bool
deriving DecidableEq

/-- Row of the `poll_options` table. -/
structure OptionRow where
  id : Int
  poll_id : Int
  text : String
  datetime_option : Option Int
deriving DecidableEq

/-- Row of the `votes` table.  `init_db` also installs
`UNIQUE(poll_id, user_id)` on this table. -/
structure VoteRow where
  id : Int
  poll_id : Int
  option_id : Int
  user_id : Int
deriving DecidableEq

/-- Row of the `users` table. -/
structure UserRow where
  id : Int
  username : String
  password_hash : String
  is_admin : Bool
deriving DecidableEq

/-- The backend database state: the four tables plus the autoincrement
counters SQLite keeps for the `INTEGER PRIMARY KEY AUTOINCREMENT`
columns that the embedded operations insert into. -/
structure Db where
  users : List UserRow
  polls : List PollRow
  options : List OptionRow
  votes : List VoteRow
  nextUserId : Int
  nextPollId : Int
  nextOptionId : Int
  nextVoteId : Int
deriving DecidableEq

/-- `db::vote` (`backend/src/db.rs` lines 237-269): inside one
transaction, delete any existing vote by this user for this poll, then
insert the new vote. -/
def Db.vote (db : Db) (poll_id option_id user_id : Int) : Db :=
  { db with
    votes :=
      db.votes.filter (fun v => !(v.poll_id == poll_id && v.user_id == user_id))
        ++ [⟨db.nextVoteId, poll_id, option_id, user_id⟩],
    nextVoteId := db.nextVoteId + 1 }

/-- The vote rows for a given `(poll, user)` pair. -/
def Db.votesFor (db : Db) (poll_id user_id : Int) : List VoteRow :=
  db.votes.filter (fun v => v.poll_id == poll_id && v.user_id == user_id)

/-- A sequence of successful single-choice casts by one user on one
poll, each applying `db::vote` with the call's target option. -/
def Db.castSeq (db : Db) (poll_id user_id : Int) (targets : List Int) : Db :=
  targets.foldl (fun d o => d.vote poll_id o user_id) db

/-- `db::get_poll`: `SELECT * FROM polls WHERE id = ?`. -/
def Db.findPoll (db : Db) (poll_id : Int) : Option PollRow :=
  db.polls.find? (fun p => p.id == poll_id)

/-- The option-membership check in `handlers::polls::add_vote`:
`SELECT COUNT(*) FROM poll_options WHERE id = ? AND poll_id = ?`. -/
def Db.optionCount (db : Db) (option_id poll_id : Int) : Nat :=
  (db.options.filter (fun o => o.id == option_id && o.poll_id == poll_id)).length

/-- The exits of `handlers::polls::add_vote` (`backend/src/handlers/
polls.rs` lines 279-366), abstracting the HTTP wrapping: `notFound`
is the 404 for a missing poll, `notActive`/`expired` are the 400s for
a closed poll, `invalidOption` the 400 for an option that does not
exist or belongs to another poll. -/
inductive AddVoteResult
  | notFound
  | notActive
  | expired
  | invalidOption
  | ok
deriving DecidableEq

/-- The expiry guard of `add_vote`: `if let Some(expires_at) =
poll.expires_at { if expires_at < Utc::now() { reject } }`. -/
def expiredNow (expires_at : Option Int) (now : Int) : Bool :=
  match expires_at with
  | some e => decide (e < now)
  | none => false

/-- `handlers::polls::add_vote`: look up the poll (404 when absent),
reject when `is_active` is false, reject when `expires_at` is in the
past, check the option belongs to the poll, then call `db::vote`. -/
def add_vote (db : Db) (poll_id option_id user_id now : Int) :
    Db × AddVoteResult :=
  match db.findPoll poll_id with
  | none => (db, .notFound)
  | some poll =>
    if poll.is_active = false then (db, .notActive)
    else if expiredNow poll.expires_at now then (db, .expired)
    else if 0 < db.optionCount option_id poll_id then
      (db.vote poll_id option_id user_id, .ok)
    else (db, .invalidOption)

/-- `db::create_poll` (`backend/src/db.rs` lines 159-186): a
transaction that inserts ONLY the poll row (options are inserted later
by separate `add_poll_option` calls) and commits, returning the poll
id. -/
def Db.create_poll (db : Db) (title : String) (description : Option String)
    (created_by : Int) (expires_at : Option Int) : Db × Int :=
  ({ db with
     polls := db.polls ++
       [⟨db.nextPollId, title, description, created_by, expires_at, true⟩],
     nextPollId := db.nextPollId + 1 },
   db.nextPollId)

/-- `db::add_poll_option`: a single auto-committed `INSERT INTO
poll_options`. -/
def Db.add_poll_option (db : Db) (poll_id : Int) (text : String)
    (datetime_option : Option Int) : Db × Int :=
  ({ db with
     options := db.options ++
       [⟨db.nextOptionId, poll_id, text, datetime_option⟩],
     nextOptionId := db.nextOptionId + 1 },
   db.nextOptionId)

/-- One entry of `CreatePollRequest.options`. -/
structure OptionSpec where
  text : String
  datetime_option : Option Int
deriving DecidableEq

/-- The exits of `handlers::polls::create_new_poll`: 400 validation
failure, 500 when an option insert fails mid-loop, 201 on success. -/
inductive CreateResult
  | badRequest
  | storeError
  | created (poll_id : Int)
deriving DecidableEq

/-- The option-insert loop of `create_new_poll` (lines 101-114): each
iteration is an independent `add_poll_option` insert on the pool; on
the first failure the handler returns 500 immediately, with every
already-committed insert left in place.  `failAt` is the index of the
first failing insert, if any. -/
def addOptionsLoop : Db → Int → List OptionSpec → Option Nat → Db × Bool
  | db, _, [], _ => (db, true)
  | db, _, _ :: _, some 0 => (db, false)
  | db, pid, o :: rest, some (n + 1) =>
    addOptionsLoop (db.add_poll_option pid o.text o.datetime_option).1
      pid rest (some n)
  | db, pid, o :: rest, none =>
    addOptionsLoop (db.add_poll_option pid o.text o.datetime_option).1
      pid rest none

/-- `handlers::polls::create_new_poll` (`backend/src/handlers/polls.rs`
lines 53-150): validate title and option count, commit the poll row via
`db::create_poll`, then insert the options one by one. -/
def create_new_poll (db : Db) (title : String) (description : Option String)
    (user_id : Int) (expires_at : Option Int) (opts : List OptionSpec)
    (failAt : Option Nat) : Db × CreateResult :=
  if trimIsEmpty title then (db, .badRequest)
  else if opts.length < 2 then (db, .badRequest)
  else if (addOptionsLoop (db.create_poll title description user_id expires_at).1
      (db.create_poll title description user_id expires_at).2 opts failAt).2 then
    ((addOptionsLoop (db.create_poll title description user_id expires_at).1
        (db.create_poll title description user_id expires_at).2 opts failAt).1,
     .created (db.create_poll title description user_id expires_at).2)
  else
    ((addOptionsLoop (db.create_poll title description user_id expires_at).1
        (db.create_poll title description user_id expires_at).2 opts failAt).1,
     .storeError)

/-- `db::get_user_vote`: `SELECT option_id FROM votes WHERE poll_id = ?
AND user_id = ?` via `fetch_optional`. -/
def Db.get_user_vote (db : Db) (poll_id user_id : Int) : Option Int :=
  (db.votesFor poll_id user_id).head?.map (fun v => v.option_id)

/-- The vote rows of one poll (the `WHERE poll_id = ?` restriction of
`get_vote_counts`). -/
def Db.pollVotes (db : Db) (poll_id : Int) : List VoteRow :=
  db.votes.filter (fun v => v.poll_id == poll_id)

/-- `db::get_vote_counts`: `SELECT option_id, COUNT(*) FROM votes WHERE
poll_id = ? GROUP BY option_id` — one `(option_id, count)` pair per
distinct option id among the poll's votes. -/
def Db.get_vote_counts (db : Db) (poll_id : Int) : List (Int × Nat) :=
  (((db.pollVotes poll_id).map (fun v => v.option_id)).dedup).map
    (fun oid =>
      (oid, ((db.pollVotes poll_id).filter (fun v => v.option_id == oid)).length))

/-- The `vote_count_map.get(&option.id).unwrap_or(&0)` lookup of
`get_results`. -/
def lookupCount (m : List (Int × Nat)) (oid : Int) : Nat :=
  match m.find? (fun kv => kv.1 == oid) with
  | some kv => kv.2
  | none => 0

/-- `PollOptionWithVotes` as built by `get_results`; the f64
`percentage` is modelled over `ℚ`. -/
structure OptionWithVotes where
  id : Int
  text : String
  datetime_option : Option Int
  vote_count : Nat
  percentage : ℚ
deriving DecidableEq

/-- `PollResult` as built by `get_results`. -/
structure PollResult where
  poll : PollRow
  options : List OptionWithVotes
  total_votes : Nat
  user_vote : Option Int
deriving DecidableEq

/-- The `let total_votes: i64 = vote_count_map.values().sum()` of
`get_results`. -/
def Db.totalVotes (db : Db) (poll_id : Int) : Nat :=
  ((db.get_vote_counts poll_id).map (fun kv => kv.2)).sum

/-- `handlers::polls::get_results` (`backend/src/handlers/polls.rs`
lines 369-462): load poll (404 when absent), options and grouped vote
counts; `total_votes` is the sum of the grouped counts; each option's
`vote_count` is its map entry (0 when absent) and its `percentage` is
`count / total * 100.0` when `total > 0`, else `0.0`. -/
def get_results (db : Db) (poll_id viewer_id : Int) : Option PollResult :=
  match db.findPoll poll_id with
  | none => none
  | some poll =>
    some
      { poll := poll
        options :=
          (db.options.filter (fun o => o.poll_id == poll_id)).map (fun o =>
            { id := o.id
              text := o.text
              datetime_option := o.datetime_option
              vote_count := lookupCount (db.get_vote_counts poll_id) o.id
              percentage :=
                if 0 < db.totalVotes poll_id then
                  ((lookupCount (db.get_vote_counts poll_id) o.id : ℚ) /
                    (db.totalVotes poll_id : ℚ)) * 100
                else 0 })
        total_votes := db.totalVotes poll_id
        user_vote := db.get_user_vote poll_id viewer_id }

/-- `init_db` (`backend/src/db.rs` lines 79-99), default-admin step:
after creating the tables, count the rows of `users`; if the table is
empty, insert `('admin', bcrypt::hash("admin"), TRUE)`.  The bcrypt
hash is the opaque parameter `hash`. -/
def init_db_admin (hash : String → String) (db : Db) : Db :=
  if db.users.length == 0 then
    { db with
      users := db.users ++ [⟨db.nextUserId, "admin", hash "admin", true⟩],
      nextUserId := db.nextUserId + 1 }
  else db

/-- A concrete empty backend database, used to instantiate theorems
with hypotheses at concrete inputs. -/
def emptyDb : Db := ⟨[], [], [], [], 1, 1, 1, 1⟩

/-- A concrete backend database whose `users` table holds one
non-admin user and no admin. -/
def nonAdminDb : Db := ⟨[⟨1, "bob", "x", false⟩], [], [], [], 2, 1, 1, 1⟩

/-- A concrete backend database with one poll, two options, and three
votes (two on option 1, one on option 2). -/
def resultsDb : Db :=
  ⟨[⟨1, "alice", "h", true⟩],
   [⟨1, "Game Night", none, 1, none, true⟩],
   [⟨1, 1, "Catan", none⟩, ⟨2, 1, "Ticket to Ride", none⟩],
   [⟨1, 1, 1, 1⟩, ⟨2, 1, 1, 2⟩, ⟨3, 1, 2, 3⟩],
   2, 2, 3, 4⟩

/-- The value `get_results` produces on `resultsDb` for poll 1 and
viewer 1. -/
def resultsVal : PollResult :=
  { poll := ⟨1, "Game Night", none, 1, none, true⟩
    options := [⟨1, "Catan", none, 2, (((2 : Nat) : ℚ) / ((3 : Nat) : ℚ)) * 100⟩,
                ⟨2, "Ticket to Ride", none, 1,
                  (((1 : Nat) : ℚ) / ((3 : Nat) : ℚ)) * 100⟩]
    total_votes := 3
    user_vote := some 1 }

/-- A concrete backend database with an inactive poll. -/
def inactiveDb : Db :=
  ⟨[⟨1, "alice", "h", true⟩], [⟨1, "p", none, 1, none, false⟩],
   [⟨1, 1, "a", none⟩], [], 2, 2, 2, 1⟩

/-- A concrete backend database with a poll whose `is_active` flag is
still true but whose expiry lies in the past of the chosen `now`. -/
def expiredDb : Db :=
  ⟨[⟨1, "alice", "h", true⟩], [⟨1, "p", none, 1, some 10, true⟩],
   [⟨1, 1, "a", none⟩], [], 2, 2, 2, 1⟩

end Backend

/-! ## Web (template) variant: data model
(`game-night-web/src/controllers/polls.rs` and the `votes`/`options`/
`polls`/`users` tables it queries). -/

namespace Web

/-- Row of the `users` table. -/
structure UserRow where
  id : Int
  username : String
  password_hash : String
  is_admin : Bool
deriving DecidableEq

/-- Row of the `polls` table: expiry is mandatory in this variant and
there is no `is_active` column. -/
structure PollRow where
  id : Int
  title : String
  description : Option String
  creator_id : Int
  expires_at : Int
deriving DecidableEq

/-- Row of the `options` table. -/
structure OptionRow where
  id : Int
  poll_id : Int
  text : String
  is_date : Bool
  date_time : Option Int
deriving DecidableEq

/-- Row of the `votes` table: no `poll_id` column in this variant; a
vote references only its option and user. -/
structure VoteRow where
  id : Int
  user_id : Int
  option_id : Int
deriving DecidableEq

/-- The template variant's database state. -/
structure Db where
  users : List UserRow
  polls : List PollRow
  options : List OptionRow
  votes : List VoteRow
  nextUserId : Int
  nextPollId : Int
  nextOptionId : Int
  nextVoteId : Int
deriving DecidableEq

/-- `controllers::polls::vote_on_poll` (lines 266-299): if the user
already has a vote for this option, delete it; otherwise insert a new
vote row `(user_id, option_id)`.  Note: no check that the option
exists or belongs to any particular poll. -/
def Db.vote_on_poll (db : Db) (option_id user_id : Int) : Db :=
  if db.votes.any (fun v => v.user_id == user_id && v.option_id == option_id) then
    { db with
      votes := db.votes.filter
        (fun v => !(v.user_id == user_id && v.option_id == option_id)) }
  else
    { db with
      votes := db.votes ++ [⟨db.nextVoteId, user_id, option_id⟩],
      nextVoteId := db.nextVoteId + 1 }

/-- Whether a user currently holds a vote on an option (the `SELECT id
FROM votes WHERE user_id = ? AND option_id = ?` existence check). -/
def Db.hasVote (db : Db) (user_id option_id : Int) : Bool :=
  db.votes.any (fun v => v.user_id == user_id && v.option_id == option_id)

/-- `n` successive `vote_on_poll` calls by the same user on the same
option. -/
def Db.toggleSeq (db : Db) (option_id user_id : Int) : Nat → Db
  | 0 => db
  | n + 1 => (db.toggleSeq option_id user_id n).vote_on_poll option_id user_id

/-- `controllers::polls::get_poll_by_id`: `SELECT p..., u.username FROM
polls p JOIN users u ON p.creator_id = u.id WHERE p.id = ?` via
`fetch_one` — an error (mapped to "Poll not found" by the routes) when
no row matches. -/
def get_poll_by_id (db : Db) (poll_id : Int) : Option (PollRow × String) :=
  match db.polls.find? (fun p => p.id == poll_id) with
  | none => none
  | some p =>
    match db.users.find? (fun u => u.id == p.creator_id) with
    | none => none
    | some u => some (p, u.username)

/-- The exits of the `/polls/<poll_id>/vote` route
(`game-night-web/src/routes/mod.rs` lines 369-401). -/
inductive VoteRouteResult
  | pollMissing
  | pollExpired
  | voted
deriving DecidableEq

/-- `routes::vote_on_poll`: look up the poll ("Poll not found" when
absent), reject when `expires_at <= now`, then invoke the controller's
toggle with only `(option_id, user_id)` — the poll id is not passed
on, so option-to-poll membership is never checked. -/
def route_vote_on_poll (db : Db) (poll_id option_id user_id now : Int) :
    Db × VoteRouteResult :=
  match get_poll_by_id db poll_id with
  | none => (db, .pollMissing)
  | some pr =>
    if pr.1.expires_at ≤ now then (db, .pollExpired)
    else (db.vote_on_poll option_id user_id, .voted)

/-- The exits of `controllers::polls::delete_poll`: `rowMissing` is
`sqlx::Error::RowNotFound`, which the route maps to the
permission-denied flash message. -/
inductive DeleteResult
  | ok
  | rowMissing
deriving DecidableEq

/-- The transactional cascade of `delete_poll` (lines 363-385): delete
votes whose option is in `SELECT id FROM options WHERE poll_id = ?`,
then the poll's options, then the poll row, in that order. -/
def delete_poll_cascade (db : Db) (poll_id : Int) : Db :=
  let db1 := { db with
    votes := db.votes.filter (fun v =>
      !((db.options.filter (fun o : OptionRow => o.poll_id == poll_id)).any
          (fun o : OptionRow => o.id == v.option_id))) }
  let db2 := { db1 with
    options := db1.options.filter (fun o => !(o.poll_id == poll_id)) }
  { db2 with polls := db2.polls.filter (fun p => !(p.id == poll_id)) }

/-- `controllers::polls::delete_poll` (lines 342-389): a non-admin
caller must be the creator of an existing poll (`RowNotFound`
otherwise); then the cascade runs inside one transaction. -/
def delete_poll (db : Db) (poll_id user_id : Int) (is_admin : Bool) :
    Db × DeleteResult :=
  if is_admin = false then
    match db.polls.find? (fun p => p.id == poll_id) with
    | some poll =>
      if poll.creator_id != user_id then (db, .rowMissing)
      else (delete_poll_cascade db poll_id, .ok)
    | none => (db, .rowMissing)
  else (delete_poll_cascade db poll_id, .ok)

/-- The aggregate built by `controllers::polls::get_poll_voting_details`
(lines 489-542); per-option voter rows keep the vote rows (the
username join only decorates them). -/
structure PollVotingDetails where
  poll : PollRow
  creator_username : String
  options_with_voters : List (OptionRow × List VoteRow)
  total_votes : Int
  total_voters : Int
deriving DecidableEq

/-- `get_poll_voting_details`: fails (propagating `get_poll_by_id`'s
`RowNotFound`) when the poll is absent; otherwise collects each
option's votes, the total vote count and the number of distinct
voters. -/
def get_poll_voting_details (db : Db) (poll_id : Int) :
    Option PollVotingDetails :=
  match get_poll_by_id db poll_id with
  | none => none
  | some pr =>
    some
      { poll := pr.1
        creator_username := pr.2
        options_with_voters :=
          (db.options.filter (fun o => o.poll_id == poll_id)).map (fun o =>
            (o, db.votes.filter (fun v => v.option_id == o.id)))
        total_votes :=
          (((db.options.filter (fun o => o.poll_id == poll_id)).map (fun o =>
            (db.votes.filter (fun v => v.option_id == o.id)).length)).sum : Int)
        total_voters :=
          (((db.options.filter (fun o => o.poll_id == poll_id)).map (fun o =>
            (db.votes.filter (fun v => v.option_id == o.id)).map
              (fun v => v.user_id))).flatten.dedup.length : Int) }

/-- `NewPollForm` (`game-night-web/src/models.rs`): all fields arrive
as strings; `options` is one comma-separated field. -/
structure NewPollForm where
  title : String
  description : String
  expires_at : String
  options : String
deriving DecidableEq

/-- The option-string parsing of `create_poll` (lines 213-218): split
on commas, trim, drop empties (string operations modelled over the
character list). -/
def parseOptionTexts (s : String) : List String :=
  ((s.toList.splitOn ',').map (fun cs => String.mk (trimChars cs))).filter
    (fun t => !t.toList.isEmpty)

/-- One iteration of the option-insert loop of `create_poll` (lines
220-239): the date heuristic (`contains 'T'` and length ≥ 16), the
rfc3339 parse (opaque `parse`; a parse failure downgrades `date_time`
to NULL), then the `INSERT INTO options` inside the transaction. -/
def txInsertOption (parse : String → Option Int) (tx : Db) (pid : Int)
    (t : String) : Db :=
  { tx with
    options := tx.options ++
      [⟨tx.nextOptionId, pid, t,
        t.toList.contains 'T' && decide (16 ≤ t.toList.length),
        if t.toList.contains 'T' && decide (16 ≤ t.toList.length) then
          parse (t ++ ":00Z") else none⟩],
    nextOptionId := tx.nextOptionId + 1 }

/-- The option-insert loop of `create_poll`, run inside the
transaction `tx`.  `none` models an insert error, which aborts the
transaction (rollback);  `failAt` is the index of the first failing
insert, if any. -/
def insertOptionsTx (parse : String → Option Int) :
    Db → Int → List String → Option Nat → Option Db
  | tx, _, [], _ => some tx
  | _, _, _ :: _, some 0 => none
  | tx, pid, t :: rest, some (n + 1) =>
    insertOptionsTx parse (txInsertOption parse tx pid t) pid rest (some n)
  | tx, pid, t :: rest, none =>
    insertOptionsTx parse (txInsertOption parse tx pid t) pid rest none

/-- `controllers::polls::create_poll` (lines 177-245): parse the
expiry (`"{form.expires_at}:00Z"` through rfc3339, error on failure),
then, inside one transaction, insert the poll row and all parsed
options; commit only at the end, so any failure rolls the whole
operation back.  Returns the new poll id on success. -/
def web_create_poll (parse : String → Option Int) (db : Db)
    (form : NewPollForm) (user_id : Int) (failAt : Option Nat) :
    Db × Option Int :=
  match parse (form.expires_at ++ ":00Z") with
  | none => (db, none)
  | some expires =>
    match insertOptionsTx parse
        { db with
          polls := db.polls ++
            [⟨db.nextPollId, form.title, some form.description, user_id, expires⟩],
          nextPollId := db.nextPollId + 1 }
        db.nextPollId (parseOptionTexts form.options) failAt with
    | none => (db, none)
    | some tx => (tx, some db.nextPollId)

/-- `controllers::users::toggle_user_role` outcome (the three exits of
the function, abstracting the flash/redirect wrapping). -/
inductive RoleResult
  | selfChangeRefused
  | userMissing
  | updated
deriving DecidableEq

/-- `controllers::users::toggle_user_role`
(`game-night-web/src/controllers/users.rs` lines 356-): refuse when
the target is the acting admin; otherwise check the target row exists
(`SELECT EXISTS`), then `UPDATE users SET is_admin = ? WHERE id = ?`. -/
def toggle_user_role (db : Db) (user_id : Int) (set_admin : Bool)
    (admin_id : Int) : Db × RoleResult :=
  if user_id == admin_id then (db, .selfChangeRefused)
  else if db.users.any (fun u => u.id == user_id) then
    ({ db with
       users := db.users.map (fun u =>
         if u.id == user_id then { u with is_admin := set_admin } else u) },
     .updated)
  else (db, .userMissing)

/-- `db::init_default_admin` (`game-night-web/src/db/mod.rs` lines
104-120): count users with `is_admin = 1`; if none, insert
`('admin', hash("admin"), 1)`. -/
def init_default_admin (hash : String → String) (db : Db) : Db :=
  if (db.users.filter (fun u => u.is_admin)).length == 0 then
    { db with
      users := db.users ++ [⟨db.nextUserId, "admin", hash "admin", true⟩],
      nextUserId := db.nextUserId + 1 }
  else db

/-- A concrete web database holding one unrelated vote, used to
instantiate theorems at concrete inputs. -/
def toggleDb : Db := ⟨[], [], [], [⟨1, 5, 9⟩], 1, 1, 1, 2⟩

/-- A concrete web database with a single (admin) user. -/
def roleDb : Db := ⟨[⟨1, "alice", "h", true⟩], [], [], [], 2, 1, 1, 1⟩

/-- A concrete web database with two polls where option 5 belongs to
poll 2 (and not to poll 1). -/
def crossDb : Db :=
  ⟨[⟨1, "alice", "h", false⟩],
   [⟨1, "p1", none, 1, 100⟩, ⟨2, "p2", none, 1, 100⟩],
   [⟨5, 2, "option of poll 2", false, none⟩],
   [], 2, 3, 6, 1⟩

/-- A concrete web database with one poll (id 1, by user 1), two
options and two votes, plus a second poll with one option and one
vote, used to instantiate the deletion theorems. -/
def deleteDb : Db :=
  ⟨[⟨1, "alice", "h", false⟩, ⟨2, "bob", "h", false⟩],
   [⟨1, "p1", none, 1, 100⟩, ⟨2, "p2", none, 2, 100⟩],
   [⟨1, 1, "a", false, none⟩, ⟨2, 1, "b", false, none⟩, ⟨3, 2, "c", false, none⟩],
   [⟨1, 1, 1⟩, ⟨2, 2, 2⟩, ⟨3, 2, 3⟩],
   3, 3, 4, 4⟩

end Web

/-! ## Helper lemmas -/

theorem castSeq_append_single (db : Backend.Db) (p u : Int) (l : List Int)
    (o : Int) :
    db.castSeq p u (l ++ [o]) = (db.castSeq p u l).vote p o u := by
  simp [Backend.Db.castSeq, List.foldl_append]

/-- After a single `db::vote` call, the `(poll, user)` pair has exactly
one vote row, and it references the call's option. -/
theorem votesFor_vote (db : Backend.Db) (p o u : Int) :
    (db.vote p o u).votesFor p u = [⟨db.nextVoteId, p, o, u⟩] := by
  simp only [Backend.Db.vote, Backend.Db.votesFor, List.filter_append,
    List.filter_filter]
  have h1 : ∀ v : Backend.VoteRow,
      ((v.poll_id == p && v.user_id == u) &&
        !(v.poll_id == p && v.user_id == u)) = false := by
    intro v; cases v.poll_id == p && v.user_id == u <;> rfl
  simp [h1]

theorem hasVote_vote_on_poll (db : Web.Db) (o u : Int) :
    (db.vote_on_poll o u).hasVote u o = !db.hasVote u o := by
  unfold Web.Db.vote_on_poll
  by_cases h : db.votes.any (fun v => v.user_id == u && v.option_id == o) = true
  · rw [if_pos h]
    show (db.votes.filter
        (fun v => !(v.user_id == u && v.option_id == o))).any
          (fun v => v.user_id == u && v.option_id == o) = !db.hasVote u o
    rw [show db.hasVote u o = true from h, Bool.not_true, List.any_eq_false]
    intro v hv
    have hne := (List.mem_filter.mp hv).2
    rw [Bool.not_eq_true'] at hne
    simp [hne]
  · have h0 : db.votes.any (fun v => v.user_id == u && v.option_id == o)
        = false := by simpa using h
    rw [if_neg h]
    show (db.votes ++ [(⟨db.nextVoteId, u, o⟩ : Web.VoteRow)]).any
        (fun v => v.user_id == u && v.option_id == o) = !db.hasVote u o
    rw [show db.hasVote u o = false from h0, Bool.not_false, List.any_append, h0]
    simp

theorem votes_vote_on_poll_other (db : Web.Db) (o u o2 u2 : Int)
    (h : ¬(u2 = u ∧ o2 = o)) :
    (db.vote_on_poll o u).votes.filter
        (fun v => v.user_id == u2 && v.option_id == o2)
      = db.votes.filter (fun v => v.user_id == u2 && v.option_id == o2) := by
  unfold Web.Db.vote_on_poll
  split
  · show (db.votes.filter _).filter _ = _
    rw [List.filter_filter]
    refine List.filter_congr ?_
    intro v _
    by_cases hb : (v.user_id == u2 && v.option_id == o2) = true
    · have hb2 : v.user_id = u2 ∧ v.option_id = o2 := by simpa using hb
      have hfalse : (v.user_id == u && v.option_id == o) = false := by
        rw [hb2.1, hb2.2]
        rcases not_and_or.mp h with h2 | h2
        · have hf : (u2 == u) = false := by simpa using h2
          rw [hf, Bool.false_and]
        · have hf : (o2 == o) = false := by simpa using h2
          rw [hf, Bool.and_false]
      rw [hfalse, Bool.not_false, Bool.and_true]
    · have hb2 : (v.user_id == u2 && v.option_id == o2) = false := by
        simpa using hb
      rw [hb2, Bool.false_and]
  · show (db.votes ++ [(⟨db.nextVoteId, u, o⟩ : Web.VoteRow)]).filter _ = _
    rw [List.filter_append]
    have hnew : ([(⟨db.nextVoteId, u, o⟩ : Web.VoteRow)].filter
        (fun v => v.user_id == u2 && v.option_id == o2)) = [] := by
      have hf : ((u == u2) && (o == o2)) = false := by
        rcases not_and_or.mp h with h2 | h2
        · have : (u == u2) = false := by
            simp only [beq_eq_false_iff_ne, ne_eq]
            exact fun hc => h2 hc.symm
          rw [this, Bool.false_and]
        · have : (o == o2) = false := by
            simp only [beq_eq_false_iff_ne, ne_eq]
            exact fun hc => h2 hc.symm
          rw [this, Bool.and_false]
      simp [List.filter_cons, hf]
    rw [hnew, List.append_nil]

/-! ## Claims -/

/-- C1: in single-choice mode (`backend/src/db.rs` `vote`), for every
sequence of successful `castVote` calls by the same user on the same
poll, at most one `Vote` row exists for that `(poll, user)` pair at any
time (given that the starting state satisfies the `UNIQUE(poll_id,
user_id)` constraint installed by `init_db`), and after a nonempty
sequence the unique row references exactly the target of the most
recent call: each cast atomically replaces any prior vote by that user
in the poll. -/
theorem single_choice_vote_invariant (db : Backend.Db) (p u : Int)
    (targets : List Int) (hinit : (db.votesFor p u).length ≤ 1) :
    (∀ pre suf, targets = pre ++ suf →
      ((db.castSeq p u pre).votesFor p u).length ≤ 1) ∧
    (∀ l o, targets = l ++ [o] →
      (db.castSeq p u targets).votesFor p u =
        [⟨(db.castSeq p u l).nextVoteId, p, o, u⟩]) := by
  constructor
  · intro pre _ _
    rcases List.eq_nil_or_concat' pre with h | ⟨l, o, rfl⟩
    · subst h; simpa [Backend.Db.castSeq] using hinit
    · rw [castSeq_append_single, votesFor_vote]; simp
  · intro l o hlo
    subst hlo
    rw [castSeq_append_single, votesFor_vote]

/-- Witness for C1: a user casting twice in an initially empty store
ends with exactly the one row for the second target. -/
theorem single_choice_vote_invariant_witness :
    ((Backend.emptyDb.votesFor 1 2).length ≤ 1) ∧
    (Backend.emptyDb.castSeq 1 2 [10, 20]).votesFor 1 2 =
      [⟨(Backend.emptyDb.castSeq 1 2 [10]).nextVoteId, 1, 20, 2⟩] :=
  ⟨by decide,
   (single_choice_vote_invariant Backend.emptyDb 1 2 [10, 20]
      (by decide)).2 [10] 20 rfl⟩

/-- C2: in toggle mode
(`game-night-web/src/controllers/polls.rs` `vote_on_poll`), for every
sequence of `n` calls by the same user on the same option starting
from a state where the user holds no vote on that option, the vote's
presence afterwards equals the parity of `n` (odd count ⇒ present,
even count ⇒ absent), and the sequence leaves every other
`(user, option)` pair's vote rows untouched. -/
theorem toggle_vote_parity (db : Web.Db) (o u : Int) (n : Nat)
    (hinit : db.hasVote u o = false) :
    ((db.toggleSeq o u n).hasVote u o = (n % 2 == 1)) ∧
    (∀ u2 o2, ¬(u2 = u ∧ o2 = o) →
      (db.toggleSeq o u n).votes.filter
          (fun v => v.user_id == u2 && v.option_id == o2)
        = db.votes.filter (fun v => v.user_id == u2 && v.option_id == o2)) := by
  induction n with
  | zero =>
    refine ⟨by simpa [Web.Db.toggleSeq] using hinit, ?_⟩
    intro u2 o2 _
    rfl
  | succ n ih =>
    constructor
    · show ((db.toggleSeq o u n).vote_on_poll o u).hasVote u o = _
      rw [hasVote_vote_on_poll, ih.1]
      rcases Nat.mod_two_eq_zero_or_one n with h | h
      · have h1 : (n + 1) % 2 = 1 := by omega
        rw [h, h1]
        rfl
      · have h1 : (n + 1) % 2 = 0 := by omega
        rw [h, h1]
        rfl
    · intro u2 o2 hne
      show ((db.toggleSeq o u n).vote_on_poll o u).votes.filter _ = _
      rw [votes_vote_on_poll_other _ _ _ _ _ hne, ih.2 u2 o2 hne]

/-- Witness for C2: three toggles by user 2 on option 7 leave the vote
present, and user 5's vote on option 9 is untouched. -/
theorem toggle_vote_parity_witness :
    Web.toggleDb.hasVote 2 7 = false ∧
    ((Web.toggleDb.toggleSeq 7 2 3).hasVote 2 7 = (3 % 2 == 1)) ∧
    ((Web.toggleDb.toggleSeq 7 2 3).votes.filter
        (fun v => v.user_id == 5 && v.option_id == 9)
      = Web.toggleDb.votes.filter
          (fun v => v.user_id == 5 && v.option_id == 9)) :=
  ⟨by decide,
   (toggle_vote_parity Web.toggleDb 7 2 3 (by decide)).1,
   (toggle_vote_parity Web.toggleDb 7 2 3 (by decide)).2 5 9 (by decide)⟩

/-- C9: `toggle_user_role` with `targetId = actingId` always fails and
leaves the whole `users` table (in particular the target's `is_admin`
flag) unchanged; conversely any call that changed the database had
`targetId ≠ actingId`. -/
theorem toggle_user_role_self_refused (db : Web.Db) (uid aid : Int)
    (set_admin : Bool) :
    (uid = aid →
      Web.toggle_user_role db uid set_admin aid = (db, .selfChangeRefused)) ∧
    ((Web.toggle_user_role db uid set_admin aid).1 ≠ db → uid ≠ aid) := by
  constructor
  · intro h
    subst h
    simp [Web.toggle_user_role]
  · intro hch heq
    subst heq
    exact hch (by simp [Web.toggle_user_role])

/-- Witness for C9: the admin user 1 trying to demote themself is
refused, with the database unchanged. -/
theorem toggle_user_role_self_refused_witness :
    Web.toggle_user_role Web.roleDb 1 false 1 =
      (Web.roleDb, Web.RoleResult.selfChangeRefused) :=
  (toggle_user_role_self_refused Web.roleDb 1 1 false).1 rfl

/-- C10 counterexample: on a backend database whose `users` table
holds one non-admin user and no admin, `init_db` inserts nothing (its
guard is `COUNT(*) = 0` over all users, not over admins), so after
initialization no admin user exists — refuting the claim that at least
one admin always exists after initialization. -/
theorem default_admin_counterexample :
    Backend.init_db_admin (fun s => s) Backend.nonAdminDb = Backend.nonAdminDb ∧
    ((Backend.init_db_admin (fun s => s) Backend.nonAdminDb).users.filter
        (fun u => u.is_admin)).length = 0 := by
  constructor <;> rfl

/-- C10 (amended): the template variant inserts the default admin
whenever no admin user exists, so after `init_default_admin` at least
one admin always exists, and it inserts nothing when an admin is
already present.  The JSON-API variant inserts the default admin
`('admin', bcrypt("admin"), TRUE)` only when the `users` table is
empty — so an admin exists afterwards when the table was empty, and
nothing is inserted when any user (admin or not) exists — but a table
holding only non-admin users is left without an admin. -/
theorem default_admin_after_init (hash : String → String) :
    (∀ db : Web.Db,
      ((Web.init_default_admin hash db).users.any (fun u => u.is_admin)) = true) ∧
    (∀ db : Web.Db, (db.users.any (fun u => u.is_admin)) = true →
      Web.init_default_admin hash db = db) ∧
    (∀ db : Backend.Db, db.users = [] →
      (Backend.init_db_admin hash db).users =
        [⟨db.nextUserId, "admin", hash "admin", true⟩]) ∧
    (∀ db : Backend.Db, db.users ≠ [] →
      Backend.init_db_admin hash db = db) := by
  refine ⟨?_, ?_, ?_, ?_⟩
  · intro db
    unfold Web.init_default_admin
    by_cases h : ((db.users.filter (fun u => u.is_admin)).length == 0) = true
    · rw [if_pos h]
      show ((db.users ++ [(⟨db.nextUserId, "admin", hash "admin", true⟩ :
          Web.UserRow)]).any (fun u => u.is_admin)) = true
      rw [List.any_append]
      simp
    · rw [if_neg h]
      rw [Nat.beq_eq_true_eq] at h
      rcases List.exists_mem_of_length_pos (Nat.pos_of_ne_zero h) with ⟨u, hu⟩
      rcases List.mem_filter.mp hu with ⟨humem, hadm⟩
      exact List.any_eq_true.mpr ⟨u, humem, hadm⟩
  · intro db h
    rcases List.any_eq_true.mp h with ⟨u, humem, hadm⟩
    have : (db.users.filter (fun u => u.is_admin)).length ≠ 0 := by
      intro hlen
      have := List.eq_nil_of_length_eq_zero hlen
      exact absurd (List.mem_filter.mpr ⟨humem, hadm⟩) (by simp [this])
    unfold Web.init_default_admin
    rw [if_neg (by simpa using this)]
  · intro db h
    unfold Backend.init_db_admin
    rw [if_pos (by simp [h]), h]
    rfl
  · intro db h
    unfold Backend.init_db_admin
    rw [if_neg (by simpa using fun hc => h (List.eq_nil_of_length_eq_zero hc))]

/-- Witness for C10's amended statement at concrete databases. -/
theorem default_admin_after_init_witness :
    (((Web.init_default_admin (fun s => s)
        ⟨[], [], [], [], 1, 1, 1, 1⟩).users.any (fun u => u.is_admin)) = true) ∧
    (Web.roleDb.users.any (fun u => u.is_admin) = true ∧
      Web.init_default_admin (fun s => s) Web.roleDb = Web.roleDb) ∧
    ((Backend.init_db_admin (fun s => s) Backend.emptyDb).users =
      [⟨Backend.emptyDb.nextUserId, "admin", "admin", true⟩]) ∧
    (Backend.nonAdminDb.users ≠ [] ∧
      Backend.init_db_admin (fun s => s) Backend.nonAdminDb = Backend.nonAdminDb) :=
  ⟨(default_admin_after_init (fun s => s)).1 ⟨[], [], [], [], 1, 1, 1, 1⟩,
   ⟨by decide, (default_admin_after_init (fun s => s)).2.1 Web.roleDb (by decide)⟩,
   (default_admin_after_init (fun s => s)).2.2.1 Backend.emptyDb rfl,
   ⟨by decide, (default_admin_after_init (fun s => s)).2.2.2 Backend.nonAdminDb
      (by decide)⟩⟩

/-- The backend option-insert loop never touches the `polls` table. -/
theorem addOptionsLoop_polls :
    ∀ (opts : List Backend.OptionSpec) (db : Backend.Db) (pid : Int)
      (fa : Option Nat),
      (Backend.addOptionsLoop db pid opts fa).1.polls = db.polls := by
  intro opts
  induction opts with
  | nil =>
    intro db pid fa
    rfl
  | cons o rest ih =>
    intro db pid fa
    rcases fa with _ | (_ | n)
    · exact ih _ pid none
    · rfl
    · exact ih _ pid (some n)

/-- A successful run of the web option-insert loop keeps the poll
table of the transaction and appends exactly the given option texts
under the given poll id. -/
theorem insertOptionsTx_spec (parse : String → Option Int) :
    ∀ (ts : List String) (tx : Web.Db) (pid : Int) (fa : Option Nat)
      (tx2 : Web.Db),
      Web.insertOptionsTx parse tx pid ts fa = some tx2 →
      tx2.polls = tx.polls ∧
      (tx2.options.filter (fun o => o.poll_id == pid)).map (fun o => o.text)
        = ((tx.options.filter (fun o => o.poll_id == pid)).map
            (fun o => o.text)) ++ ts := by
  intro ts
  induction ts with
  | nil =>
    intro tx pid fa tx2 h
    have h2 : tx = tx2 := by simpa [Web.insertOptionsTx] using h
    subst h2
    exact ⟨rfl, by simp⟩
  | cons t rest ih =>
    intro tx pid fa tx2 h
    have hrow : (((Web.txInsertOption parse tx pid t).options.filter
          (fun o => o.poll_id == pid)).map (fun o => o.text))
        = ((tx.options.filter (fun o => o.poll_id == pid)).map
            (fun o => o.text)) ++ [t] := by
      have hopts : (Web.txInsertOption parse tx pid t).options
          = tx.options ++ [⟨tx.nextOptionId, pid, t,
              t.toList.contains 'T' && decide (16 ≤ t.toList.length),
              if t.toList.contains 'T' && decide (16 ≤ t.toList.length) then
                parse (t ++ ":00Z") else none⟩] := rfl
      rw [hopts, List.filter_append, List.map_append]
      simp [List.filter_cons]
    rcases fa with _ | (_ | n)
    · have hstep : Web.insertOptionsTx parse tx pid (t :: rest) none
          = Web.insertOptionsTx parse (Web.txInsertOption parse tx pid t)
              pid rest none := rfl
      rw [hstep] at h
      have h2 := ih _ pid none tx2 h
      refine ⟨h2.1, ?_⟩
      rw [h2.2, hrow, List.append_assoc]
      rfl
    · simp [Web.insertOptionsTx] at h
    · have hstep : Web.insertOptionsTx parse tx pid (t :: rest) (some (n + 1))
          = Web.insertOptionsTx parse (Web.txInsertOption parse tx pid t)
              pid rest (some n) := rfl
      rw [hstep] at h
      have h2 := ih _ pid (some n) tx2 h
      refine ⟨h2.1, ?_⟩
      rw [h2.2, hrow, List.append_assoc]
      rfl

/-- C3 counterexample: in the JSON-API backend, `create_new_poll` on
an empty store with two requested options, where the second option
insert fails, ends in a reachable state with the poll row committed
and only one of its two options present (the poll insert was committed
in its own transaction before the per-option inserts, which are
individually committed) — refuting the claim that the poll and all its
options are inserted inside one transaction that rolls back as a
whole. -/
theorem create_poll_partial_counterexample :
    (Backend.create_new_poll Backend.emptyDb "Game Night" none 1 none
        [⟨"Catan", none⟩, ⟨"Ticket to Ride", none⟩] (some 1)).2
      = Backend.CreateResult.storeError ∧
    ((Backend.create_new_poll Backend.emptyDb "Game Night" none 1 none
        [⟨"Catan", none⟩, ⟨"Ticket to Ride", none⟩] (some 1)).1.polls.map
          (fun p => p.id)) = [1] ∧
    ((Backend.create_new_poll Backend.emptyDb "Game Night" none 1 none
        [⟨"Catan", none⟩, ⟨"Ticket to Ride", none⟩] (some 1)).1.options.map
          (fun o => o.text)) = ["Catan"] := by
  refine ⟨rfl, rfl, rfl⟩

/-- C3 (amended): in the template variant, `create_poll` inserts the
poll row and all parsed options inside one transaction: any failure
(bad expiry or a failing insert at any index) leaves the database
exactly unchanged, and success commits the poll row together with all
parsed option texts.  In the JSON-API backend, the poll row is
committed by its own transaction before the options are inserted one
by one, so after validation passes the poll row is present in the
final state for every failure oracle — including mid-loop failures
that leave only a partial option set (see the counterexample). -/
theorem create_poll_atomicity (parse : String → Option Int) :
    (∀ (db : Web.Db) (form : Web.NewPollForm) (uid : Int) (failAt : Option Nat),
      ((Web.web_create_poll parse db form uid failAt).2 = none →
        (Web.web_create_poll parse db form uid failAt).1 = db) ∧
      ((∀ o ∈ db.options, (o.poll_id == db.nextPollId) = false) →
        ∀ pid, (Web.web_create_poll parse db form uid failAt).2 = some pid →
          ((Web.web_create_poll parse db form uid failAt).1.polls.map
              (fun p => p.id)
            = db.polls.map (fun p => p.id) ++ [pid]) ∧
          (((Web.web_create_poll parse db form uid failAt).1.options.filter
              (fun o => o.poll_id == pid)).map (fun o => o.text)
            = Web.parseOptionTexts form.options))) ∧
    (∀ (db : Backend.Db) (title : String) (desc : Option String) (uid : Int)
        (exp : Option Int) (opts : List Backend.OptionSpec)
        (failAt : Option Nat),
      trimIsEmpty title = false → 2 ≤ opts.length →
      (Backend.create_new_poll db title desc uid exp opts failAt).1.polls
        = db.polls ++ [⟨db.nextPollId, title, desc, uid, exp, true⟩]) := by
  constructor
  · intro db form uid failAt
    rcases hparse : parse (form.expires_at ++ ":00Z") with _ | expires
    · constructor
      · intro _
        simp [Web.web_create_poll, hparse]
      · intro _ pid hpid
        simp [Web.web_create_poll, hparse] at hpid
    · rcases hins : Web.insertOptionsTx parse
          { db with
            polls := db.polls ++
              [⟨db.nextPollId, form.title, some form.description, uid, expires⟩],
            nextPollId := db.nextPollId + 1 }
          db.nextPollId (Web.parseOptionTexts form.options) failAt
          with _ | tx
      · constructor
        · intro _
          simp [Web.web_create_poll, hparse, hins]
        · intro _ pid hpid
          simp [Web.web_create_poll, hparse, hins] at hpid
      · have hspec := insertOptionsTx_spec parse
          (Web.parseOptionTexts form.options) _ db.nextPollId failAt tx hins
        constructor
        · intro hnone
          simp [Web.web_create_poll, hparse, hins] at hnone
        · intro hfresh pid hpid
          have hres1 : (Web.web_create_poll parse db form uid failAt).1 = tx := by
            simp [Web.web_create_poll, hparse, hins]
          have hres2 : (Web.web_create_poll parse db form uid failAt).2
              = some db.nextPollId := by
            simp [Web.web_create_poll, hparse, hins]
          have hpid2 : pid = db.nextPollId := by
            rw [hres2] at hpid
            exact (Option.some.inj hpid).symm
          subst hpid2
          constructor
          · rw [hres1, hspec.1]
            show (db.polls ++ [(⟨db.nextPollId, form.title,
                some form.description, uid, expires⟩ : Web.PollRow)]).map
                  (fun p => p.id)
              = db.polls.map (fun p => p.id) ++ [db.nextPollId]
            rw [List.map_append]
            rfl
          · rw [hres1, hspec.2]
            have hnil : db.options.filter
                (fun o => o.poll_id == db.nextPollId) = [] := by
              rw [List.filter_eq_nil_iff]
              intro o ho
              simp [hfresh o ho]
            show ((db.options.filter
                (fun o => o.poll_id == db.nextPollId)).map (fun o => o.text))
                ++ Web.parseOptionTexts form.options
              = Web.parseOptionTexts form.options
            rw [hnil]
            rfl
  · intro db title desc uid exp opts failAt htitle hlen
    unfold Backend.create_new_poll
    rw [if_neg (by simp [htitle]), if_neg (by omega)]
    by_cases hok : (Backend.addOptionsLoop
        (db.create_poll title desc uid exp).1
        (db.create_poll title desc uid exp).2 opts failAt).2 = true
    · rw [if_pos hok]
      show (Backend.addOptionsLoop _ _ opts failAt).1.polls = _
      rw [addOptionsLoop_polls]
      rfl
    · rw [if_neg hok]
      show (Backend.addOptionsLoop _ _ opts failAt).1.polls = _
      rw [addOptionsLoop_polls]
      rfl

/-- Witness for C3's amended statement: a failing option insert rolls
the template-variant creation back entirely; a successful run commits
the poll with both parsed options; the backend poll row survives a
failing option loop. -/
theorem create_poll_atomicity_witness :
    ((Web.web_create_poll (fun _ => some 50) Web.roleDb
        ⟨"T", "D", "2030-01-01T00:00", "a, b"⟩ 1 (some 1)).2 = none ∧
      (Web.web_create_poll (fun _ => some 50) Web.roleDb
        ⟨"T", "D", "2030-01-01T00:00", "a, b"⟩ 1 (some 1)).1 = Web.roleDb) ∧
    ((Web.web_create_poll (fun _ => some 50) Web.roleDb
        ⟨"T", "D", "2030-01-01T00:00", "a, b"⟩ 1 none).1.options.filter
          (fun o => o.poll_id == 1)).map (fun o => o.text)
        = Web.parseOptionTexts "a, b" ∧
    (trimIsEmpty "GN" = false ∧
      (Backend.create_new_poll Backend.emptyDb "GN" none 1 none
          [⟨"a", none⟩, ⟨"b", none⟩] (some 1)).1.polls
        = Backend.emptyDb.polls ++ [⟨1, "GN", none, 1, none, true⟩]) :=
  ⟨⟨by decide,
    ((create_poll_atomicity (fun _ => some 50)).1 Web.roleDb
      ⟨"T", "D", "2030-01-01T00:00", "a, b"⟩ 1 (some 1)).1 (by decide)⟩,
   (((create_poll_atomicity (fun _ => some 50)).1 Web.roleDb
      ⟨"T", "D", "2030-01-01T00:00", "a, b"⟩ 1 none).2 (by decide) 1
      (by decide)).2,
   ⟨by decide,
    (create_poll_atomicity (fun _ => some 50)).2 Backend.emptyDb "GN" none 1
      none [⟨"a", none⟩, ⟨"b", none⟩] (some 1) (by decide) (by decide)⟩⟩

/-- C4 counterexample: in the template variant, a vote call naming
poll 1 but an option that belongs to poll 2 succeeds and records the
vote (the route only checks the poll's existence and expiry; the
controller never checks the option at all) — refuting the claim that
such a call fails with `NotFoundError` and records no vote. -/
theorem vote_wrong_poll_counterexample :
    (Web.crossDb.options.filter (fun o => o.id == 5 && o.poll_id == 1)) = [] ∧
    (Web.route_vote_on_poll Web.crossDb 1 5 1 0).2
      = Web.VoteRouteResult.voted ∧
    (Web.route_vote_on_poll Web.crossDb 1 5 1 0).1.votes = [⟨1, 1, 5⟩] := by
  refine ⟨rfl, rfl, rfl⟩

/-- C4 (amended): a missing poll makes the cast fail without recording
a vote in both variants (404 in the backend, "Poll not found" in the
template variant).  In the backend, an option that does not exist or
belongs to a different poll fails with the 400 "Invalid poll option"
response (a validation error rather than the claimed `NotFoundError`),
recording no vote.  The template variant performs no option check at
all: a cast naming an existing unexpired poll records a vote for any
`optionId`, even one belonging to a different poll (see the
counterexample). -/
theorem vote_not_found_checks :
    (∀ (db : Backend.Db) (p o u now : Int), db.findPoll p = none →
      Backend.add_vote db p o u now = (db, Backend.AddVoteResult.notFound)) ∧
    (∀ (db : Backend.Db) (p o u now : Int) (poll : Backend.PollRow),
      db.findPoll p = some poll →
      poll.is_active = true →
      (∀ e, poll.expires_at = some e → ¬ e < now) →
      db.optionCount o p = 0 →
      Backend.add_vote db p o u now
        = (db, Backend.AddVoteResult.invalidOption)) ∧
    (∀ (db : Web.Db) (p o u now : Int), Web.get_poll_by_id db p = none →
      Web.route_vote_on_poll db p o u now
        = (db, Web.VoteRouteResult.pollMissing)) := by
  refine ⟨?_, ?_, ?_⟩
  · intro db p o u now h
    simp [Backend.add_vote, h]
  · intro db p o u now poll hfind hact hexp hcount
    have hcount2 : ¬ 0 < db.optionCount o p := by omega
    have hnexp : Backend.expiredNow poll.expires_at now = false := by
      rcases he : poll.expires_at with _ | e
      · rfl
      · simpa [Backend.expiredNow] using hexp e he
    simp only [Backend.add_vote, hfind]
    rw [if_neg (by simp [hact]), if_neg (by simp [hnexp]), if_neg hcount2]
  · intro db p o u now h
    simp [Web.route_vote_on_poll, h]

/-- Witness for C4's amended statement at concrete databases. -/
theorem vote_not_found_checks_witness :
    (Backend.emptyDb.findPoll 1 = none ∧
      Backend.add_vote Backend.emptyDb 1 1 1 0
        = (Backend.emptyDb, Backend.AddVoteResult.notFound)) ∧
    (Backend.resultsDb.findPoll 1 = some ⟨1, "Game Night", none, 1, none, true⟩ ∧
      Backend.resultsDb.optionCount 9 1 = 0 ∧
      Backend.add_vote Backend.resultsDb 1 9 1 0
        = (Backend.resultsDb, Backend.AddVoteResult.invalidOption)) ∧
    (Web.get_poll_by_id Web.crossDb 7 = none ∧
      Web.route_vote_on_poll Web.crossDb 7 5 1 0
        = (Web.crossDb, Web.VoteRouteResult.pollMissing)) :=
  ⟨⟨by decide, vote_not_found_checks.1 Backend.emptyDb 1 1 1 0 (by decide)⟩,
   ⟨by decide, by decide,
    vote_not_found_checks.2.1 Backend.resultsDb 1 9 1 0
      ⟨1, "Game Night", none, 1, none, true⟩ (by decide) (by decide)
      (by intro e he; simp at he) (by decide)⟩,
   ⟨by decide, vote_not_found_checks.2.2 Web.crossDb 7 5 1 0 (by decide)⟩⟩

/-- C7: a cast on a closed poll is rejected without recording a vote,
and the two closure conditions are enforced independently: in the
backend, `is_active = false` is rejected first, and an `expires_at` in
the past is rejected even when `is_active` is still true; in the
template variant (which has no flag), `expires_at ≤ now` is rejected. -/
theorem vote_poll_closed :
    (∀ (db : Backend.Db) (p o u now : Int) (poll : Backend.PollRow),
      db.findPoll p = some poll → poll.is_active = false →
      Backend.add_vote db p o u now = (db, Backend.AddVoteResult.notActive)) ∧
    (∀ (db : Backend.Db) (p o u now : Int) (poll : Backend.PollRow) (e : Int),
      db.findPoll p = some poll → poll.is_active = true →
      poll.expires_at = some e → e < now →
      Backend.add_vote db p o u now = (db, Backend.AddVoteResult.expired)) ∧
    (∀ (db : Web.Db) (p o u now : Int) (pr : Web.PollRow × String),
      Web.get_poll_by_id db p = some pr → pr.1.expires_at ≤ now →
      Web.route_vote_on_poll db p o u now
        = (db, Web.VoteRouteResult.pollExpired)) := by
  refine ⟨?_, ?_, ?_⟩
  · intro db p o u now poll hfind hact
    simp only [Backend.add_vote, hfind]
    rw [if_pos hact]
  · intro db p o u now poll e hfind hact hexp hlt
    have hyes : Backend.expiredNow poll.expires_at now = true := by
      rw [hexp]
      simpa [Backend.expiredNow] using hlt
    simp only [Backend.add_vote, hfind]
    rw [if_neg (by simp [hact]), if_pos hyes]
  · intro db p o u now pr hfind hle
    simp only [Web.route_vote_on_poll, hfind]
    rw [if_pos hle]

/-- Witness for C7: an inactive poll, an expired-but-still-flagged
poll, and an expired template-variant poll are each rejected. -/
theorem vote_poll_closed_witness :
    (Backend.inactiveDb.findPoll 1 = some ⟨1, "p", none, 1, none, false⟩ ∧
      Backend.add_vote Backend.inactiveDb 1 1 1 0
        = (Backend.inactiveDb, Backend.AddVoteResult.notActive)) ∧
    (Backend.expiredDb.findPoll 1 = some ⟨1, "p", none, 1, some 10, true⟩ ∧
      Backend.add_vote Backend.expiredDb 1 1 1 50
        = (Backend.expiredDb, Backend.AddVoteResult.expired)) ∧
    (Web.get_poll_by_id Web.crossDb 1 = some (⟨1, "p1", none, 1, 100⟩, "alice") ∧
      Web.route_vote_on_poll Web.crossDb 1 5 1 200
        = (Web.crossDb, Web.VoteRouteResult.pollExpired)) :=
  ⟨⟨by decide,
    vote_poll_closed.1 Backend.inactiveDb 1 1 1 0 ⟨1, "p", none, 1, none, false⟩
      (by decide) rfl⟩,
   ⟨by decide,
    vote_poll_closed.2.1 Backend.expiredDb 1 1 1 50
      ⟨1, "p", none, 1, some 10, true⟩ 10 (by decide) rfl rfl (by decide)⟩,
   ⟨by decide,
    vote_poll_closed.2.2 Web.crossDb 1 5 1 200 (⟨1, "p1", none, 1, 100⟩, "alice")
      (by decide) (by decide)⟩⟩

/-- C5: `delete_poll` invoked by the poll's creator or by an admin
succeeds and runs the ordered cascade (votes referencing the poll's
options, then its options, then the poll row, inside one transaction):
afterwards no remaining vote references any option of the poll, no
option of the poll remains, the poll row is gone, and both
`get_poll_by_id` and `get_poll_voting_details` on that id fail with
the row-not-found error. -/
theorem delete_poll_cascade_correct (db : Web.Db) (pid uid : Int) (adm : Bool)
    (poll : Web.PollRow)
    (hfind : db.polls.find? (fun p => p.id == pid) = some poll)
    (hperm : adm = true ∨ poll.creator_id = uid) :
    (Web.delete_poll db pid uid adm).2 = Web.DeleteResult.ok ∧
    (∀ v ∈ (Web.delete_poll db pid uid adm).1.votes,
      ∀ o ∈ db.options, o.poll_id = pid → v.option_id ≠ o.id) ∧
    ((Web.delete_poll db pid uid adm).1.options.filter
        (fun o => o.poll_id == pid) = []) ∧
    ((Web.delete_poll db pid uid adm).1.polls.find?
        (fun p => p.id == pid) = none) ∧
    (Web.get_poll_by_id (Web.delete_poll db pid uid adm).1 pid = none) ∧
    (Web.get_poll_voting_details (Web.delete_poll db pid uid adm).1 pid
      = none) := by
  have hrun : Web.delete_poll db pid uid adm
      = (Web.delete_poll_cascade db pid, Web.DeleteResult.ok) := by
    unfold Web.delete_poll
    cases adm with
    | true => rw [if_neg (by simp)]
    | false =>
      rw [if_pos rfl, hfind]
      rcases hperm with hadm | hmine
      · exact absurd hadm (by simp)
      · show (if (poll.creator_id != uid) = true then _ else _) = _
        rw [if_neg (by simp [hmine])]
  have hvotes : (Web.delete_poll_cascade db pid).votes
      = db.votes.filter (fun v =>
          !((db.options.filter (fun o : Web.OptionRow => o.poll_id == pid)).any
              (fun o : Web.OptionRow => o.id == v.option_id))) := rfl
  have hopts : (Web.delete_poll_cascade db pid).options
      = db.options.filter (fun o => !(o.poll_id == pid)) := rfl
  have hpolls : (Web.delete_poll_cascade db pid).polls
      = db.polls.filter (fun p => !(p.id == pid)) := rfl
  have hfnone : (Web.delete_poll_cascade db pid).polls.find?
      (fun p => p.id == pid) = none := by
    rw [hpolls, List.find?_eq_none]
    intro p hp
    have := (List.mem_filter.mp hp).2
    rw [Bool.not_eq_true'] at this
    simp [this]
  refine ⟨by rw [hrun], ?_, ?_, ?_, ?_, ?_⟩
  · intro v hv o ho hop heq
    rw [hrun] at hv
    rw [hvotes] at hv
    have hpred := (List.mem_filter.mp hv).2
    rw [Bool.not_eq_true', List.any_eq_false] at hpred
    have homem : o ∈ db.options.filter
        (fun o : Web.OptionRow => o.poll_id == pid) :=
      List.mem_filter.mpr ⟨ho, by simp [hop]⟩
    have := hpred o homem
    simp [heq] at this
  · rw [hrun]
    show (Web.delete_poll_cascade db pid).options.filter _ = []
    rw [hopts, List.filter_filter]
    rw [List.filter_eq_nil_iff]
    intro o _
    cases hb : (o.poll_id == pid) <;> simp [hb]
  · rw [hrun]
    exact hfnone
  · rw [hrun]
    show Web.get_poll_by_id (Web.delete_poll_cascade db pid) pid = none
    unfold Web.get_poll_by_id
    rw [hfnone]
  · rw [hrun]
    show Web.get_poll_voting_details (Web.delete_poll_cascade db pid) pid = none
    unfold Web.get_poll_voting_details
    unfold Web.get_poll_by_id
    rw [hfnone]

/-- Witness for C5: the creator deletes poll 1; lookups afterwards
fail, poll 2 and its data survive. -/
theorem delete_poll_cascade_correct_witness :
    (Web.deleteDb.polls.find? (fun p => p.id == 1)
        = some ⟨1, "p1", none, 1, 100⟩) ∧
    (Web.delete_poll Web.deleteDb 1 1 false).2 = Web.DeleteResult.ok ∧
    Web.get_poll_by_id (Web.delete_poll Web.deleteDb 1 1 false).1 1 = none ∧
    Web.get_poll_voting_details (Web.delete_poll Web.deleteDb 1 1 false).1 1
      = none :=
  ⟨by decide,
   (delete_poll_cascade_correct Web.deleteDb 1 1 false ⟨1, "p1", none, 1, 100⟩
      (by decide) (Or.inr rfl)).1,
   (delete_poll_cascade_correct Web.deleteDb 1 1 false ⟨1, "p1", none, 1, 100⟩
      (by decide) (Or.inr rfl)).2.2.2.2.1,
   (delete_poll_cascade_correct Web.deleteDb 1 1 false ⟨1, "p1", none, 1, 100⟩
      (by decide) (Or.inr rfl)).2.2.2.2.2⟩

/-- C6: `delete_poll` by an identity that is neither the creator of
the existing poll nor an admin fails (with the `RowNotFound` error the
route reports as permission denied) and returns the database exactly
unchanged — poll, options and votes all intact. -/
theorem delete_poll_forbidden (db : Web.Db) (pid uid : Int)
    (poll : Web.PollRow)
    (hfind : db.polls.find? (fun p => p.id == pid) = some poll)
    (hnotmine : poll.creator_id ≠ uid) :
    Web.delete_poll db pid uid false = (db, Web.DeleteResult.rowMissing) := by
  unfold Web.delete_poll
  rw [if_pos rfl, hfind]
  show (if (poll.creator_id != uid) = true then _ else _) = _
  rw [if_pos (by simpa using hnotmine)]

/-- Witness for C6: user 2 (not an admin, not the creator of poll 1)
cannot delete poll 1, and the database is unchanged. -/
theorem delete_poll_forbidden_witness :
    (Web.deleteDb.polls.find? (fun p => p.id == 1)
        = some ⟨1, "p1", none, 1, 100⟩) ∧
    Web.delete_poll Web.deleteDb 1 2 false
      = (Web.deleteDb, Web.DeleteResult.rowMissing) :=
  ⟨by decide,
   delete_poll_forbidden Web.deleteDb 1 2 ⟨1, "p1", none, 1, 100⟩
     (by decide) (by decide)⟩

/-- `find?` over an association list built by pairing each key with a
computed value returns the queried key's pair exactly when the key is
present. -/
theorem find?_map_key {β : Type} (keys : List Int) (f : Int → β) (x : Int) :
    (keys.map (fun k => (k, f k))).find? (fun kv => kv.1 == x)
      = if x ∈ keys then some (x, f x) else none := by
  induction keys with
  | nil => rfl
  | cons k rest ih =>
    rw [List.map_cons]
    by_cases hk : k = x
    · subst hk
      rw [List.find?_cons_of_pos _ (by simp)]
      rw [if_pos (List.mem_cons_self _ _)]
    · rw [List.find?_cons_of_neg _ (by simp [hk]), ih]
      by_cases hx : x ∈ rest
      · rw [if_pos hx, if_pos (List.mem_cons_of_mem _ hx)]
      · rw [if_neg hx, if_neg (by
          intro hc
          rcases List.mem_cons.mp hc with h | h
          · exact hk h.symm
          · exact hx h)]

/-- The `unwrap_or(&0)` map lookup of `get_results` equals the plain
per-option count of the poll's votes, also for options absent from the
grouped counts. -/
theorem lookupCount_get_vote_counts (db : Backend.Db) (pid oid : Int) :
    Backend.lookupCount (db.get_vote_counts pid) oid
      = ((db.pollVotes pid).filter (fun v => v.option_id == oid)).length := by
  unfold Backend.Db.get_vote_counts Backend.lookupCount
  rw [find?_map_key]
  by_cases hx : oid ∈ ((db.pollVotes pid).map (fun v => v.option_id)).dedup
  · rw [if_pos hx]
  · rw [if_neg hx]
    have hnil : (db.pollVotes pid).filter (fun v => v.option_id == oid) = [] := by
      rw [List.filter_eq_nil_iff]
      intro v hv
      rw [List.mem_dedup] at hx
      have hmem : v.option_id ∈ (db.pollVotes pid).map (fun v => v.option_id) :=
        List.mem_map_of_mem _ hv
      simp only [beq_iff_eq]
      intro hc
      exact hx (hc ▸ hmem)
    rw [hnil]
    rfl

/-- Per-option filter length is the count of the option id among the
votes' option ids. -/
theorem length_filter_eq_count_map (l : List Backend.VoteRow) (k : Int) :
    (l.filter (fun v => v.option_id == k)).length
      = (l.map (fun v => v.option_id)).count k := by
  induction l with
  | nil => rfl
  | cons v l ih =>
    rw [List.map_cons, List.count_cons, List.filter_cons]
    by_cases h : (v.option_id == k) = true
    · rw [if_pos h, List.length_cons, ih, if_pos h]
    · rw [if_neg h, ih, if_neg h]
      omega

theorem sum_map_add_nat {α : Type} (l : List α) (f g : α → Nat) :
    (l.map (fun x => f x + g x)).sum = (l.map f).sum + (l.map g).sum := by
  induction l with
  | nil => rfl
  | cons a l ih =>
    simp only [List.map_cons, List.sum_cons, ih]
    omega

theorem sum_indicator_nodup (a : Int) :
    ∀ ids : List Int, ids.Nodup → a ∈ ids →
      (ids.map (fun id => if (a == id) = true then 1 else 0)).sum = 1 := by
  intro ids
  induction ids with
  | nil =>
    intro _ ha
    cases ha
  | cons k rest ih =>
    intro hnd ha
    rw [List.map_cons, List.sum_cons]
    rcases List.mem_cons.mp ha with h | h
    · subst h
      rw [if_pos (by simp)]
      have hz : (rest.map (fun id =>
          if (a == id) = true then 1 else 0)).sum = 0 := by
        apply List.sum_eq_zero
        intro x hx
        rcases List.mem_map.mp hx with ⟨id, hid, rfl⟩
        have hne : ¬(a == id) = true := by
          simp only [beq_iff_eq]
          intro hc
          exact (List.nodup_cons.mp hnd).1 (hc ▸ hid)
        rw [if_neg hne]
      rw [hz]
    · have hk : ¬(a == k) = true := by
        simp only [beq_iff_eq]
        intro hc
        exact (List.nodup_cons.mp hnd).1 (hc ▸ h)
      rw [if_neg hk, ih (List.nodup_cons.mp hnd).2 h]

/-- Summing per-id counts over a duplicate-free list of ids that
covers every element of `l` yields the length of `l`. -/
theorem sum_counts_of_cover (ids : List Int) (hnd : ids.Nodup) :
    ∀ l : List Int, (∀ x ∈ l, x ∈ ids) →
      (ids.map (fun id => l.count id)).sum = l.length := by
  intro l
  induction l with
  | nil =>
    intro _
    rw [List.length_nil]
    apply List.sum_eq_zero
    intro x hx
    rcases List.mem_map.mp hx with ⟨id, _, rfl⟩
    rfl
  | cons a l ih =>
    intro hcov
    have hmapeq : ids.map (fun id => (a :: l).count id)
        = ids.map (fun id =>
            l.count id + if (a == id) = true then 1 else 0) := by
      apply List.map_congr_left
      intro id _
      rw [List.count_cons]
    rw [hmapeq, sum_map_add_nat,
      ih (fun x hx => hcov x (List.mem_cons_of_mem _ hx)),
      sum_indicator_nodup a ids hnd (hcov a (List.mem_cons_self _ _)),
      List.length_cons]

/-- The `total_votes` of `get_results` (the sum of the grouped counts)
equals the number of the poll's vote rows. -/
theorem total_votes_eq_length (db : Backend.Db) (pid : Int) :
    db.totalVotes pid = (db.pollVotes pid).length := by
  unfold Backend.Db.totalVotes Backend.Db.get_vote_counts
  rw [List.map_map]
  have hcongr : (((db.pollVotes pid).map (fun v => v.option_id)).dedup).map
      ((fun kv : Int × Nat => kv.2) ∘ (fun oid =>
        (oid, ((db.pollVotes pid).filter
          (fun v => v.option_id == oid)).length)))
      = (((db.pollVotes pid).map (fun v => v.option_id)).dedup).map
          (fun oid =>
            ((db.pollVotes pid).map (fun v => v.option_id)).count oid) := by
    apply List.map_congr_left
    intro id _
    exact length_filter_eq_count_map _ id
  rw [hcongr, List.sum_map_count_dedup_eq_length, List.length_map]

/-- C8: whenever `get_results` succeeds, every option's `percentage`
equals exactly `count / totalVotes * 100.0` when `totalVotes > 0` and
`0.0` when `totalVotes = 0` (the floating-point expression modelled
over `ℚ`), and — given that the poll's options have distinct ids and
every vote of the poll references one of the poll's options (the
invariant `add_vote` maintains) — the sum of the options'
`vote_count`s equals `total_votes` exactly. -/
theorem get_results_correct (db : Backend.Db) (pid viewer : Int)
    (res : Backend.PollResult)
    (hres : Backend.get_results db pid viewer = some res)
    (hnodup : ((db.options.filter (fun o => o.poll_id == pid)).map
        (fun o => o.id)).Nodup)
    (hmember : ∀ v ∈ db.votes, v.poll_id = pid →
      v.option_id ∈ (db.options.filter (fun o => o.poll_id == pid)).map
        (fun o => o.id)) :
    (∀ ow ∈ res.options,
      ow.percentage = if 0 < res.total_votes then
        ((ow.vote_count : ℚ) / (res.total_votes : ℚ)) * 100 else 0) ∧
    ((res.options.map (fun ow => ow.vote_count)).sum = res.total_votes) := by
  unfold Backend.get_results at hres
  rcases hfind : db.findPoll pid with _ | poll
  · rw [hfind] at hres
    cases hres
  · rw [hfind] at hres
    have hres2 := Option.some.inj hres
    subst hres2
    constructor
    · intro ow how
      rcases List.mem_map.mp how with ⟨o, _, rfl⟩
      rfl
    · rw [List.map_map]
      show ((db.options.filter (fun o => o.poll_id == pid)).map
          (fun o => Backend.lookupCount (db.get_vote_counts pid) o.id)).sum
        = db.totalVotes pid
      have hcover : ∀ x ∈ (db.pollVotes pid).map (fun v => v.option_id),
          x ∈ (db.options.filter (fun o => o.poll_id == pid)).map
            (fun o => o.id) := by
        intro x hx
        rcases List.mem_map.mp hx with ⟨v, hv, rfl⟩
        have hv2 := List.mem_filter.mp hv
        exact hmember v hv2.1 (by simpa using hv2.2)
      have hstep : (db.options.filter (fun o => o.poll_id == pid)).map
          (fun o => Backend.lookupCount (db.get_vote_counts pid) o.id)
          = ((db.options.filter (fun o => o.poll_id == pid)).map
              (fun o => o.id)).map
              (fun id =>
                ((db.pollVotes pid).map (fun v => v.option_id)).count id) := by
        rw [List.map_map]
        apply List.map_congr_left
        intro o _
        show Backend.lookupCount (db.get_vote_counts pid) o.id = _
        rw [lookupCount_get_vote_counts, length_filter_eq_count_map]
        rfl
      rw [hstep, sum_counts_of_cover _ hnodup _ hcover, List.length_map]
      exact (total_votes_eq_length db pid).symm

/-- Witness for C8 at a concrete poll with three votes over two
options (2 votes vs 1 vote: percentages 200/3 and 100/3, counts
summing to 3). -/
theorem get_results_correct_witness :
    (Backend.get_results Backend.resultsDb 1 1 = some Backend.resultsVal) ∧
    (((Backend.resultsDb.options.filter (fun o => o.poll_id == 1)).map
        (fun o => o.id)).Nodup) ∧
    (∀ v ∈ Backend.resultsDb.votes, v.poll_id = 1 →
      v.option_id ∈ (Backend.resultsDb.options.filter
        (fun o => o.poll_id == 1)).map (fun o => o.id)) ∧
    (∀ ow ∈ Backend.resultsVal.options,
      ow.percentage = if 0 < Backend.resultsVal.total_votes then
        ((ow.vote_count : ℚ) / (Backend.resultsVal.total_votes : ℚ)) * 100
      else 0) ∧
    ((Backend.resultsVal.options.map (fun ow => ow.vote_count)).sum
      = Backend.resultsVal.total_votes) :=
  ⟨rfl, by decide, by decide,
   (get_results_correct Backend.resultsDb 1 1 Backend.resultsVal rfl
      (by decide) (by decide)).1,
   (get_results_correct Backend.resultsDb 1 1 Backend.resultsVal rfl
      (by decide) (by decide)).2⟩

end GameNight
